/-
Verification of the payoff-calculator repository's monthly financial engine.

The development shallowly embeds `src/calculator.py` and the statically
checkable surface of `src/simulation.py` into Lean over the real numbers
(Python floats are idealised as exact reals).  Each local variable of
`process_month` (calculator.py lines 108-216) is lifted to a top-level
definition carrying the same name as the Python local, and `process_month`
itself assembles them exactly as the source does, so every field of the
returned record is definitionally the corresponding helper.
-/
import Mathlib

/-- calculator.py lines 5-47.  The dataclass holding the static configuration.
`investment_type` is the Python string field; the code only ever compares it
against the literal "CD" (anything else is treated as STOCK). -/
structure PaymentConfig where
  loan_amount : ℝ
  loan_rate : ℝ
  loan_term_months : ℤ
  target_payment : ℝ
  initial_savings : ℝ
  minimum_payment : ℝ
  investment_rate : ℝ
  tax_rate : ℝ
  investment_type : String
  monthly_savings_payment : ℝ
  excess_to_savings : Bool

/-- calculator.py lines 50-54. -/
structure LoanState where
  balance : ℝ
  total_interest_paid : ℝ
  total_principal_paid : ℝ

/-- calculator.py lines 56-61. -/
structure SavingsState where
  balance : ℝ
  total_returns : ℝ
  total_taxes_paid : ℝ
  total_pocket_money : ℝ

/-- calculator.py lines 63-72. -/
structure MonthlyResult where
  new_loan_state : LoanState
  new_savings_state : SavingsState
  interest_payment : ℝ
  principal_payment : ℝ
  investment_returns : ℝ
  tax_payment : ℝ
  pocket_money : ℝ
  savings_contribution : ℝ

/-- calculator.py lines 74-106, `calculate_minimum_payment`.  The Python
`raise ValueError` paths are modelled by `Except.error`; the `1e-10`
near-zero-denominator fallback of lines 103-104 is kept verbatim.  The
Python locals `monthly_rate = rate / 12`,
`numerator = amount * monthly_rate * (1 + monthly_rate) ** months` and
`denominator = (1 + monthly_rate) ** months - 1` are inlined at their use
sites. -/
noncomputable def calculate_minimum_payment (amount rate : ℝ) (months : ℤ) :
    Except String ℝ :=
  if amount ≤ 0 then Except.error ("Loan amount must be positive")
  else if rate < 0 then Except.error ("Interest rate cannot be negative")
  else if months ≤ 0 then Except.error ("Loan term must be positive")
  else if rate = 0 then Except.ok (amount / (months : ℝ))
  else if |(1 + rate / 12) ^ months.toNat - 1| < 1 / 10 ^ 10 then
    Except.ok (amount * (1 + rate / 12))
  else
    Except.ok (amount * (rate / 12) * (1 + rate / 12) ^ months.toNat /
      ((1 + rate / 12) ^ months.toNat - 1))

/-- The amortization check loop of the spec (§8) and of
test_calculator.py lines 14-21: each month accrue `balance * rate / 12`,
pay `payment`, reduce the balance by the principal portion. -/
noncomputable def amortized_balance (payment rate : ℝ) : ℝ → ℕ → ℝ
  | balance, 0 => balance
  | balance, n + 1 =>
      amortized_balance payment rate (balance - (payment - balance * (rate / 12))) n


/-! ## The monthly transition engine, calculator.py lines 108-216

Each Python local of `process_month` becomes a top-level definition of the
same name.  The two regime branches of lines 143-174 assign the same
withdrawal expression under the same guard (lines 151-156 and 162-167 are
textually identical), so the locals `savings_payment`, `tax_payment`,
`monthly_return` and the updated `principal_payment` are given here by one
definition each, with the guards of the enclosing `if`s made explicit. -/

/-- calculator.py line 115: compound conversion of the annual loan rate. -/
noncomputable def monthly_loan_rate (config : PaymentConfig) : ℝ :=
  (1 + config.loan_rate) ^ ((1 : ℝ) / 12) - 1

/-- calculator.py line 116: compound conversion of the investment rate. -/
noncomputable def monthly_investment_rate (config : PaymentConfig) : ℝ :=
  (1 + config.investment_rate) ^ ((1 : ℝ) / 12) - 1

/-- calculator.py line 119. -/
noncomputable def monthly_interest (config : PaymentConfig) (loan_state : LoanState) : ℝ :=
  loan_state.balance * monthly_loan_rate config

/-- calculator.py line 122. -/
noncomputable def total_needed (config : PaymentConfig) (loan_state : LoanState) : ℝ :=
  loan_state.balance + monthly_interest config loan_state

/-- calculator.py line 126. -/
noncomputable def excess_payment (config : PaymentConfig) : ℝ :=
  max 0 (config.target_payment - config.minimum_payment)

/-- The guard of calculator.py line 129. -/
def routeExcess (config : PaymentConfig) (loan_state : LoanState) : Prop :=
  config.excess_to_savings = true ∧ 0 < excess_payment config ∧ 0 < loan_state.balance

noncomputable instance (config : PaymentConfig) (loan_state : LoanState) :
    Decidable (routeExcess config loan_state) := by
  unfold routeExcess; infer_instance

/-- calculator.py lines 123 and 131: the part of the target payment sent to
the loan, re-capped at the minimum payment when excess is routed to savings. -/
noncomputable def payment_from_income (config : PaymentConfig) (loan_state : LoanState) : ℝ :=
  if routeExcess config loan_state then
    min config.minimum_payment (min config.target_payment (total_needed config loan_state))
  else min config.target_payment (total_needed config loan_state)

/-- calculator.py lines 127 and 132: the savings contribution recorded by the
excess-routing branch (later possibly overwritten at lines 188-189). -/
noncomputable def routed_contribution (config : PaymentConfig) (loan_state : LoanState) : ℝ :=
  if routeExcess config loan_state then excess_payment config else 0

/-- calculator.py line 135. -/
noncomputable def interest_payment (config : PaymentConfig) (loan_state : LoanState) : ℝ :=
  min (monthly_interest config loan_state) (payment_from_income config loan_state)

/-- calculator.py line 136: the principal portion before any savings
withdrawal is added (the value of `principal_payment` at line 136). -/
noncomputable def income_principal (config : PaymentConfig) (loan_state : LoanState) : ℝ :=
  payment_from_income config loan_state - interest_payment config loan_state

/-- The common guard of calculator.py lines 143/151 and 143/162 under which a
savings-to-loan withdrawal is attempted. -/
def withdrawGuard (config : PaymentConfig) (loan_state : LoanState)
    (savings_state : SavingsState) : Prop :=
  0 < savings_state.balance ∧ 0 < loan_state.balance ∧ config.excess_to_savings = false

noncomputable instance (config : PaymentConfig) (loan_state : LoanState)
    (savings_state : SavingsState) :
    Decidable (withdrawGuard config loan_state savings_state) := by
  unfold withdrawGuard; infer_instance

/-- calculator.py lines 152-156 / 163-167 (otherwise the initialisation of
line 141 stands). -/
noncomputable def savings_payment (config : PaymentConfig) (loan_state : LoanState)
    (savings_state : SavingsState) : ℝ :=
  if withdrawGuard config loan_state savings_state then
    min config.monthly_savings_payment
      (min savings_state.balance (loan_state.balance - income_principal config loan_state))
  else 0

/-- calculator.py lines 148-149 (CD: tax accrues on the return) and 168-169
(STOCK: tax only on a positive withdrawal); line 140 otherwise. -/
noncomputable def tax_payment (config : PaymentConfig) (loan_state : LoanState)
    (savings_state : SavingsState) : ℝ :=
  if 0 < savings_state.balance then
    if config.investment_type = "CD" then
      savings_state.balance * monthly_investment_rate config * config.tax_rate
    else if 0 < savings_payment config loan_state savings_state then
      savings_payment config loan_state savings_state * config.tax_rate
    else 0
  else 0

/-- calculator.py line 147 (CD: return on the opening balance) and lines
173-174 (STOCK: return on the balance net of withdrawal and tax); line 139
otherwise. -/
noncomputable def monthly_return (config : PaymentConfig) (loan_state : LoanState)
    (savings_state : SavingsState) : ℝ :=
  if 0 < savings_state.balance then
    if config.investment_type = "CD" then
      savings_state.balance * monthly_investment_rate config
    else
      (savings_state.balance - savings_payment config loan_state savings_state -
        tax_payment config loan_state savings_state) * monthly_investment_rate config
  else 0

/-- calculator.py lines 136, 157-158, 170: the final principal payment, with
a positive withdrawal added on. -/
noncomputable def principal_payment (config : PaymentConfig) (loan_state : LoanState)
    (savings_state : SavingsState) : ℝ :=
  if 0 < savings_payment config loan_state savings_state then
    income_principal config loan_state + savings_payment config loan_state savings_state
  else income_principal config loan_state

/-- calculator.py line 177: note there is no `max 0` clamp and the accrued
interest is not added back. -/
noncomputable def new_loan_balance (config : PaymentConfig) (loan_state : LoanState)
    (savings_state : SavingsState) : ℝ :=
  loan_state.balance - principal_payment config loan_state savings_state

/-- calculator.py line 185: computed from the configured target payment. -/
noncomputable def pocket_money (config : PaymentConfig) : ℝ :=
  max 0 (config.minimum_payment - config.target_payment)

/-- calculator.py lines 188-189: on payoff the remaining target payment
*overwrites* (is assigned over) any routed contribution. -/
noncomputable def savings_contribution (config : PaymentConfig) (loan_state : LoanState)
    (savings_state : SavingsState) : ℝ :=
  if new_loan_balance config loan_state savings_state = 0 ∧
      payment_from_income config loan_state < config.target_payment then
    config.target_payment - payment_from_income config loan_state
  else routed_contribution config loan_state

/-- calculator.py lines 192-198. -/
noncomputable def new_savings_balance (config : PaymentConfig) (loan_state : LoanState)
    (savings_state : SavingsState) : ℝ :=
  savings_state.balance + monthly_return config loan_state savings_state -
    tax_payment config loan_state savings_state -
    savings_payment config loan_state savings_state +
    savings_contribution config loan_state savings_state

/-- calculator.py lines 108-216, `process_month`, assembled from the locals
above exactly as lines 178-216 assemble the returned `MonthlyResult`. -/
noncomputable def process_month (config : PaymentConfig) (loan_state : LoanState)
    (savings_state : SavingsState) : MonthlyResult :=
  { new_loan_state :=
      { balance := new_loan_balance config loan_state savings_state
      , total_interest_paid :=
          loan_state.total_interest_paid + interest_payment config loan_state
      , total_principal_paid :=
          loan_state.total_principal_paid + principal_payment config loan_state savings_state }
  , new_savings_state :=
      { balance := new_savings_balance config loan_state savings_state
      , total_returns :=
          savings_state.total_returns + monthly_return config loan_state savings_state
      , total_taxes_paid :=
          savings_state.total_taxes_paid + tax_payment config loan_state savings_state
      , total_pocket_money := savings_state.total_pocket_money + pocket_money config }
  , interest_payment := interest_payment config loan_state
  , principal_payment := principal_payment config loan_state savings_state
  , investment_returns := monthly_return config loan_state savings_state
  , tax_payment := tax_payment config loan_state savings_state
  , pocket_money := pocket_money config
  , savings_contribution := savings_contribution config loan_state savings_state }

/-- simulation.py lines 92-97 in the small: fold `process_month` over `n`
months from a given pair of states. -/
noncomputable def run_months (config : PaymentConfig) :
    ℕ → LoanState × SavingsState → LoanState × SavingsState
  | 0, st => st
  | n + 1, st =>
      run_months config n
        ((process_month config st.1 st.2).new_loan_state,
         (process_month config st.1 st.2).new_savings_state)

/-! ## The simulation driver, simulation.py

`simulation.py` cannot run against `calculator.py` as committed: its line 4
requests `DerivedConfig`, a name `calculator.py` never defines (Python
raises ImportError while loading the module); were that repaired, the
`PaymentConfig(...)` call at lines 43-53 binds the keyword
`minimum_payment`, which is not a parameter of `PaymentConfig.__init__`
(lines 19-31), and omits the required `initial_savings` and
`excess_to_savings`; and line 93 passes 4 arguments to the 3-parameter
`process_month`.  The embedding models these static checks in the order
Python performs them; the month loop is unreachable for this source. -/

/-- simulation.py lines 8-18. -/
structure SimulationResult where
  loan_balance : List ℝ
  savings_balance : List ℝ
  pocket_money_balance : List ℝ
  loan_payments : List ℝ
  principal_payments : List ℝ
  interest_payments : List ℝ
  savings_contributions : List ℝ
  pocket_money : List ℝ
  total_pocket_money : ℝ

/-- The module-level names calculator.py defines. -/
def calculator_module_names : List String :=
  ["PaymentConfig", "LoanState", "SavingsState", "MonthlyResult",
   "calculate_minimum_payment", "process_month"]

/-- The names simulation.py lines 3-6 import from calculator. -/
def simulation_import_names : List String :=
  ["PaymentConfig", "DerivedConfig", "LoanState", "SavingsState",
   "MonthlyResult", "calculate_minimum_payment", "process_month"]

/-- Python's import succeeds iff every requested name is defined. -/
def simulation_import_ok : Bool :=
  simulation_import_names.all (fun n => calculator_module_names.contains n)

/-- The parameters of `PaymentConfig.__init__`, calculator.py lines 19-31
(none has a default). -/
def payment_config_init_params : List String :=
  ["loan_amount", "loan_rate", "loan_term_months", "target_payment",
   "initial_savings", "monthly_savings_payment", "investment_rate",
   "tax_rate", "investment_type", "excess_to_savings"]

/-- The keywords bound by the `PaymentConfig(...)` call, simulation.py
lines 43-53. -/
def payment_config_call_kwargs : List String :=
  ["loan_amount", "loan_rate", "loan_term_months", "target_payment",
   "minimum_payment", "investment_rate", "tax_rate", "investment_type",
   "monthly_savings_payment"]

/-- A Python keyword call binds iff every keyword names a parameter and
every default-free parameter receives a value. -/
def payment_config_call_ok : Bool :=
  payment_config_call_kwargs.all (fun k => payment_config_init_params.contains k) &&
  payment_config_init_params.all (fun k => payment_config_call_kwargs.contains k)

/-- calculator.py lines 108-112: `process_month` takes 3 parameters. -/
def process_month_param_count : Nat := 3

/-- simulation.py line 93 passes 4 arguments to `process_month`. -/
def process_month_call_arg_count : Nat := 4

/-- simulation.py lines 20-110, `run_simulation`, reduced to the static
checks Python performs before (and while) running it; each failing check
surfaces as the error Python would raise.  All three checks fail for this
source, the first already at module-import time. -/
def run_simulation (debt_amount debt_interest : ℝ) (loan_term_months : ℤ)
    (target_payment initial_savings lump_sum monthly_savings_payment
      investment_rate tax_rate : ℝ) (is_cd : Bool) :
    Except String SimulationResult :=
  if simulation_import_ok then
    if payment_config_call_ok then
      if process_month_call_arg_count = process_month_param_count then
        Except.error ("unreachable for this source: all static checks fail")
      else
        Except.error ("TypeError: process_month takes 3 positional arguments but 4 were given")
    else
      Except.error ("TypeError: PaymentConfig.__init__ got an unexpected keyword argument minimum_payment")
  else
    Except.error ("ImportError: cannot import name DerivedConfig from calculator")

/-! ## Concrete scenarios used by the claims

Each claim gets its own copies of the configurations and states it
evaluates.  `minimum_payment` is filled with the exact annuity expression
`calculate_minimum_payment` produces for the scenario's loan where the
scenario fixes it (the §8 scenario: 100000 at 5% over 360 months, monthly
rate 1/240). -/

/-- §8 scenario configuration (claim C1). -/
noncomputable def c1_config : PaymentConfig :=
  { loan_amount := 100000, loan_rate := 1/20, loan_term_months := 360
  , target_payment := 600, initial_savings := 10000
  , minimum_payment :=
      100000 * (1/240) * (241/240) ^ (360 : ℕ) / ((241/240) ^ (360 : ℕ) - 1)
  , investment_rate := 7/100, tax_rate := 1/4, investment_type := "CD"
  , monthly_savings_payment := 100, excess_to_savings := false }

noncomputable def c1_loan : LoanState := { balance := 100000, total_interest_paid := 0, total_principal_paid := 0 }

noncomputable def c1_savings : SavingsState :=
  { balance := 10000, total_returns := 0, total_taxes_paid := 0, total_pocket_money := 0 }

/-- §8 scenario configuration (claim C4). -/
noncomputable def c4_config : PaymentConfig :=
  { loan_amount := 100000, loan_rate := 1/20, loan_term_months := 360
  , target_payment := 600, initial_savings := 10000
  , minimum_payment :=
      100000 * (1/240) * (241/240) ^ (360 : ℕ) / ((241/240) ^ (360 : ℕ) - 1)
  , investment_rate := 7/100, tax_rate := 1/4, investment_type := "CD"
  , monthly_savings_payment := 100, excess_to_savings := false }

noncomputable def c4_loan : LoanState := { balance := 100000, total_interest_paid := 0, total_principal_paid := 0 }

noncomputable def c4_savings : SavingsState :=
  { balance := 10000, total_returns := 0, total_taxes_paid := 0, total_pocket_money := 0 }

/-- STOCK-regime scenario exposing the withdrawal cap (claim C5): a 25% tax
rate with the savings balance exactly equal to the configured monthly
withdrawal. -/
noncomputable def c5_config : PaymentConfig :=
  { loan_amount := 1000, loan_rate := 0, loan_term_months := 12
  , target_payment := 0, initial_savings := 100, minimum_payment := 0
  , investment_rate := 0, tax_rate := 1/4, investment_type := "STOCK"
  , monthly_savings_payment := 100, excess_to_savings := false }

noncomputable def c5_loan : LoanState := { balance := 1000, total_interest_paid := 0, total_principal_paid := 0 }

noncomputable def c5_savings : SavingsState :=
  { balance := 100, total_returns := 0, total_taxes_paid := 0, total_pocket_money := 0 }

/-- Pocket-money scenario (claim C6): the loan needs less than the target,
so the actual out-of-pocket payment is below the target. -/
noncomputable def c6_config : PaymentConfig :=
  { loan_amount := 50, loan_rate := 0, loan_term_months := 12
  , target_payment := 60, initial_savings := 0, minimum_payment := 100
  , investment_rate := 0, tax_rate := 0, investment_type := "CD"
  , monthly_savings_payment := 0, excess_to_savings := false }

noncomputable def c6_loan : LoanState := { balance := 50, total_interest_paid := 0, total_principal_paid := 0 }

noncomputable def c6_savings : SavingsState :=
  { balance := 0, total_returns := 0, total_taxes_paid := 0, total_pocket_money := 0 }

/-- Underpayment scenario (claim C7): annual rate `1.01^12 - 1` so the
compound monthly rate is exactly 1%, with a target payment below the
accrued interest. -/
noncomputable def c7_config : PaymentConfig :=
  { loan_amount := 1000, loan_rate := (101/100) ^ (12 : ℕ) - 1, loan_term_months := 12
  , target_payment := 4, initial_savings := 0, minimum_payment := 4
  , investment_rate := 0, tax_rate := 0, investment_type := "CD"
  , monthly_savings_payment := 0, excess_to_savings := false }

noncomputable def c7_loan : LoanState := { balance := 1000, total_interest_paid := 0, total_principal_paid := 0 }

noncomputable def c7_savings : SavingsState :=
  { balance := 0, total_returns := 0, total_taxes_paid := 0, total_pocket_money := 0 }

/-- Routing-plus-payoff scenario (claim C8): excess routing is active and
the loan is cleared in the same month. -/
noncomputable def c8_config : PaymentConfig :=
  { loan_amount := 50, loan_rate := (101/100) ^ (12 : ℕ) - 1, loan_term_months := 12
  , target_payment := 1000, initial_savings := 0, minimum_payment := 100
  , investment_rate := 0, tax_rate := 0, investment_type := "CD"
  , monthly_savings_payment := 0, excess_to_savings := true }

noncomputable def c8_loan : LoanState := { balance := 50, total_interest_paid := 0, total_principal_paid := 0 }

noncomputable def c8_savings : SavingsState :=
  { balance := 0, total_returns := 0, total_taxes_paid := 0, total_pocket_money := 0 }

/-- Paid-off-loan scenario for the claim C8 witness. -/
noncomputable def c8w_config : PaymentConfig :=
  { loan_amount := 1000, loan_rate := 0, loan_term_months := 12
  , target_payment := 5, initial_savings := 0, minimum_payment := 0
  , investment_rate := 0, tax_rate := 0, investment_type := "CD"
  , monthly_savings_payment := 0, excess_to_savings := false }

noncomputable def c8w_loan : LoanState := { balance := 0, total_interest_paid := 0, total_principal_paid := 0 }

noncomputable def c8w_savings : SavingsState :=
  { balance := 0, total_returns := 0, total_taxes_paid := 0, total_pocket_money := 0 }

/-- §8 excess-routing scenario (claim C9): target 1000, routing on. -/
noncomputable def c9_config : PaymentConfig :=
  { loan_amount := 100000, loan_rate := 1/20, loan_term_months := 360
  , target_payment := 1000, initial_savings := 10000
  , minimum_payment :=
      100000 * (1/240) * (241/240) ^ (360 : ℕ) / ((241/240) ^ (360 : ℕ) - 1)
  , investment_rate := 7/100, tax_rate := 1/4, investment_type := "CD"
  , monthly_savings_payment := 100, excess_to_savings := true }

noncomputable def c9_loan : LoanState := { balance := 100000, total_interest_paid := 0, total_principal_paid := 0 }

noncomputable def c9_savings : SavingsState :=
  { balance := 10000, total_returns := 0, total_taxes_paid := 0, total_pocket_money := 0 }

/-- All-zero scenario for the claim C10 witness. -/
noncomputable def c10w_config : PaymentConfig :=
  { loan_amount := 1000, loan_rate := 0, loan_term_months := 12
  , target_payment := 0, initial_savings := 0, minimum_payment := 0
  , investment_rate := 0, tax_rate := 0, investment_type := "CD"
  , monthly_savings_payment := 0, excess_to_savings := false }

noncomputable def c10w_loan : LoanState := { balance := 0, total_interest_paid := 0, total_principal_paid := 0 }

noncomputable def c10w_savings : SavingsState :=
  { balance := 0, total_returns := 0, total_taxes_paid := 0, total_pocket_money := 0 }

/-! ## General lemmas -/

/-- Closed form of the amortization loop: a geometric accumulation of the
monthly growth factor `1 + rate / 12`. -/
theorem amortized_balance_closed (payment rate : ℝ) (balance : ℝ) (n : ℕ) :
    amortized_balance payment rate balance n =
      balance * (1 + rate / 12) ^ n -
        payment * ∑ i ∈ Finset.range n, (1 + rate / 12) ^ i := by
  induction n generalizing balance with
  | zero => simp [amortized_balance]
  | succ n ih =>
      rw [amortized_balance, ih, geom_sum_succ']
      ring

/-- With a zero rate the loop just subtracts the payment each month. -/
theorem amortized_balance_zero_rate (payment balance : ℝ) (n : ℕ) :
    amortized_balance payment 0 balance n = balance - n * payment := by
  rw [amortized_balance_closed]
  simp
  ring

section TwelfthRoot

/-- `(x ^ (1/12)) ^ 12 = x` for nonnegative `x`. -/
theorem twelfthRoot_pow {x : ℝ} (hx : 0 ≤ x) :
    (x ^ ((1 : ℝ) / 12)) ^ (12 : ℕ) = x := by
  rw [← Real.rpow_natCast (x ^ ((1 : ℝ) / 12)) 12, ← Real.rpow_mul hx]
  norm_num

/-- `(c ^ 12) ^ (1/12) = c` for nonnegative `c`. -/
theorem twelfthRoot_of_pow {c : ℝ} (hc : 0 ≤ c) :
    (c ^ (12 : ℕ)) ^ ((1 : ℝ) / 12) = c := by
  rw [← Real.rpow_natCast c 12, ← Real.rpow_mul hc]
  norm_num

/-- Upper bound on a real twelfth root, by comparing twelfth powers. -/
theorem twelfthRoot_lt {x c : ℝ} (hx : 0 ≤ x) (hc : 0 ≤ c)
    (h : x < c ^ (12 : ℕ)) : x ^ ((1 : ℝ) / 12) < c := by
  refine lt_of_pow_lt_pow_left₀ 12 hc ?_
  rwa [twelfthRoot_pow hx]

/-- Lower bound on a real twelfth root, by comparing twelfth powers. -/
theorem lt_twelfthRoot {x c : ℝ} (hc : 0 ≤ c) (h : c ^ (12 : ℕ) < x) :
    c < x ^ ((1 : ℝ) / 12) := by
  have hx : 0 ≤ x := le_trans (pow_nonneg hc 12) h.le
  refine lt_of_pow_lt_pow_left₀ 12 (Real.rpow_nonneg hx _) ?_
  rwa [twelfthRoot_pow hx]

/-- Weak lower bound: the twelfth root of `x ≥ c^12` is at least `c`. -/
theorem le_twelfthRoot {x c : ℝ} (hc : 0 ≤ c) (h : c ^ (12 : ℕ) ≤ x) :
    c ≤ x ^ ((1 : ℝ) / 12) := by
  have hx : 0 ≤ x := le_trans (pow_nonneg hc 12) h
  have h12 : c ^ (12 : ℕ) ≤ (x ^ ((1 : ℝ) / 12)) ^ (12 : ℕ) := by
    rwa [twelfthRoot_pow hx]
  exact le_of_pow_le_pow_left₀ (by norm_num) (Real.rpow_nonneg hx _) h12

end TwelfthRoot


/-! ## Projection and evaluation lemmas -/

theorem process_month_interest_payment (c : PaymentConfig) (l : LoanState) (s : SavingsState) :
    (process_month c l s).interest_payment = interest_payment c l := rfl

theorem process_month_principal_payment (c : PaymentConfig) (l : LoanState) (s : SavingsState) :
    (process_month c l s).principal_payment = principal_payment c l s := rfl

theorem process_month_loan_balance (c : PaymentConfig) (l : LoanState) (s : SavingsState) :
    (process_month c l s).new_loan_state.balance = new_loan_balance c l s := rfl

theorem process_month_savings_balance (c : PaymentConfig) (l : LoanState) (s : SavingsState) :
    (process_month c l s).new_savings_state.balance = new_savings_balance c l s := rfl

theorem process_month_returns (c : PaymentConfig) (l : LoanState) (s : SavingsState) :
    (process_month c l s).investment_returns = monthly_return c l s := rfl

theorem process_month_tax (c : PaymentConfig) (l : LoanState) (s : SavingsState) :
    (process_month c l s).tax_payment = tax_payment c l s := rfl

theorem process_month_pocket (c : PaymentConfig) (l : LoanState) (s : SavingsState) :
    (process_month c l s).pocket_money = pocket_money c := rfl

theorem process_month_contribution (c : PaymentConfig) (l : LoanState) (s : SavingsState) :
    (process_month c l s).savings_contribution = savings_contribution c l s := rfl

/-- A zero annual rate converts to a zero monthly rate. -/
theorem monthly_loan_rate_zero {c : PaymentConfig} (h : c.loan_rate = 0) :
    monthly_loan_rate c = 0 := by
  simp [monthly_loan_rate, h, Real.one_rpow]

theorem monthly_investment_rate_zero {c : PaymentConfig} (h : c.investment_rate = 0) :
    monthly_investment_rate c = 0 := by
  simp [monthly_investment_rate, h, Real.one_rpow]

/-- An annual rate of the exact form `q ^ 12 - 1` converts to the exact
monthly rate `q - 1`. -/
theorem monthly_loan_rate_of_pow {c : PaymentConfig} {q : ℝ} (hq : 0 ≤ q)
    (h : c.loan_rate = q ^ (12 : ℕ) - 1) : monthly_loan_rate c = q - 1 := by
  unfold monthly_loan_rate
  rw [h, show 1 + (q ^ (12 : ℕ) - 1) = q ^ (12 : ℕ) by ring, twelfthRoot_of_pow hq]

/-- A nonnegative annual loan rate gives a nonnegative compound monthly rate. -/
theorem monthly_loan_rate_nonneg {c : PaymentConfig} (h : 0 ≤ c.loan_rate) :
    0 ≤ monthly_loan_rate c := by
  unfold monthly_loan_rate
  have h1 : (1 : ℝ) ≤ (1 + c.loan_rate) ^ ((1 : ℝ) / 12) := by
    have h2 : (1 : ℝ) ^ (12 : ℕ) ≤ 1 + c.loan_rate := by norm_num; linarith
    have := @le_twelfthRoot (1 + c.loan_rate) 1 zero_le_one h2
    simpa using this
  linarith

/-- Starting from a zero loan balance with a nonnegative target payment,
every component of the month's loan activity is zero and the whole target
payment is contributed to savings. -/
theorem zero_balance_step {c : PaymentConfig} {l : LoanState} (s : SavingsState)
    (hb : l.balance = 0) (ht : 0 ≤ c.target_payment) :
    payment_from_income c l = 0 ∧ interest_payment c l = 0 ∧
    income_principal c l = 0 ∧ savings_payment c l s = 0 ∧
    principal_payment c l s = 0 ∧ new_loan_balance c l s = 0 ∧
    savings_contribution c l s = c.target_payment := by
  have hmi : monthly_interest c l = 0 := by simp [monthly_interest, hb]
  have htn : total_needed c l = 0 := by simp [total_needed, hmi, hb]
  have hroute : ¬ routeExcess c l := by
    rintro ⟨-, -, hpos⟩; rw [hb] at hpos; exact lt_irrefl 0 hpos
  have hpfi : payment_from_income c l = 0 := by
    unfold payment_from_income
    rw [if_neg hroute, htn, min_eq_right ht]
  have hip : interest_payment c l = 0 := by
    unfold interest_payment
    rw [hmi, hpfi, min_self]
  have hinc : income_principal c l = 0 := by
    unfold income_principal; rw [hpfi, hip]; ring
  have hguard : ¬ withdrawGuard c l s := by
    rintro ⟨-, hpos, -⟩; rw [hb] at hpos; exact lt_irrefl 0 hpos
  have hsp : savings_payment c l s = 0 := by
    unfold savings_payment; rw [if_neg hguard]
  have hpp : principal_payment c l s = 0 := by
    unfold principal_payment
    rw [hsp, if_neg (lt_irrefl 0), hinc]
  have hnlb : new_loan_balance c l s = 0 := by
    unfold new_loan_balance; rw [hb, hpp]; ring
  have hrc : routed_contribution c l = 0 := by
    unfold routed_contribution; rw [if_neg hroute]
  have hsc : savings_contribution c l s = c.target_payment := by
    unfold savings_contribution
    rcases lt_or_eq_of_le ht with hlt | heq
    · rw [if_pos ⟨hnlb, by rw [hpfi]; exact hlt⟩, hpfi]; ring
    · rw [if_neg ?_, hrc, ← heq]
      rintro ⟨-, hlt⟩; rw [hpfi, ← heq] at hlt; exact lt_irrefl 0 hlt
  exact ⟨hpfi, hip, hinc, hsp, hpp, hnlb, hsc⟩

/-- The income part of the payment never exceeds the total needed to clear
the loan this month. -/
theorem payment_from_income_le_total_needed (c : PaymentConfig) (l : LoanState) :
    payment_from_income c l ≤ total_needed c l := by
  unfold payment_from_income
  by_cases h : routeExcess c l
  · rw [if_pos h]
    exact le_trans (min_le_right _ _) (min_le_right _ _)
  · rw [if_neg h]
    exact min_le_right _ _

/-- The principal portion paid out of income is nonnegative. -/
theorem income_principal_nonneg (c : PaymentConfig) (l : LoanState) :
    0 ≤ income_principal c l := by
  unfold income_principal interest_payment
  have := min_le_right (monthly_interest c l) (payment_from_income c l)
  linarith

/-- The principal paid out of income cannot exceed the opening balance. -/
theorem income_principal_le_balance (c : PaymentConfig) (l : LoanState)
    (hb : 0 ≤ l.balance) :
    income_principal c l ≤ l.balance := by
  unfold income_principal interest_payment
  rcases le_total (payment_from_income c l) (monthly_interest c l) with h | h
  · rw [min_eq_right h]; linarith
  · rw [min_eq_left h]
    have htn := payment_from_income_le_total_needed c l
    unfold total_needed at htn
    linarith

/-- The total principal applied this month (income part plus savings
withdrawal) cannot exceed the opening balance. -/
theorem principal_payment_le_balance (c : PaymentConfig) (l : LoanState) (s : SavingsState)
    (hb : 0 ≤ l.balance) :
    principal_payment c l s ≤ l.balance := by
  unfold principal_payment
  by_cases hsp : 0 < savings_payment c l s
  · rw [if_pos hsp]
    have hcap : savings_payment c l s ≤ l.balance - income_principal c l := by
      unfold savings_payment at hsp ⊢
      by_cases hg : withdrawGuard c l s
      · rw [if_pos hg]
        exact le_trans (min_le_right _ _) (min_le_right _ _)
      · rw [if_neg hg] at hsp; exact absurd hsp (lt_irrefl 0)
    linarith
  · rw [if_neg hsp]
    exact income_principal_le_balance c l hb

/-- Once the loan balance is zero it stays zero under iteration, whatever
the savings state does, as long as the target payment is nonnegative. -/
theorem run_months_zero_absorbing (c : PaymentConfig) (ht : 0 ≤ c.target_payment) :
    ∀ (n : ℕ) (l : LoanState) (s : SavingsState), l.balance = 0 →
      (run_months c n (l, s)).1.balance = 0 := by
  intro n
  induction n with
  | zero => intro l s hb; simpa [run_months] using hb
  | succ n ih =>
      intro l s hb
      rw [run_months]
      exact ih _ _ ((zero_balance_step s hb ht).2.2.2.2.2.1)

/-! ## Numeric bounds on the compound monthly rates -/

/-- Upper bound on the compound monthly rate for a 5% annual rate
(the true value is about 0.0040741). -/
theorem monthly_rate_05_lt : (1 + (1/20 : ℝ)) ^ ((1 : ℝ)/12) - 1 < 51/12500 := by
  have h : ((1 : ℝ) + 1/20) ^ ((1 : ℝ)/12) < 12551/12500 :=
    twelfthRoot_lt (by norm_num) (by norm_num) (by norm_num)
  linarith

/-- Lower bound on the compound monthly rate for a 5% annual rate. -/
theorem lt_monthly_rate_05 : (407/100000 : ℝ) < (1 + (1/20 : ℝ)) ^ ((1 : ℝ)/12) - 1 := by
  have h : (100407/100000 : ℝ) < ((1 : ℝ) + 1/20) ^ ((1 : ℝ)/12) :=
    lt_twelfthRoot (by norm_num) (by norm_num)
  linarith

/-- Upper bound on the compound monthly rate for a 7% annual rate
(the true value is about 0.0056541). -/
theorem monthly_rate_07_lt : (1 + (7/100 : ℝ)) ^ ((1 : ℝ)/12) - 1 < 1131/200000 := by
  have h : ((1 : ℝ) + 7/100) ^ ((1 : ℝ)/12) < 201131/200000 :=
    twelfthRoot_lt (by norm_num) (by norm_num) (by norm_num)
  linarith

/-- Lower bound on the compound monthly rate for a 7% annual rate. -/
theorem lt_monthly_rate_07 : (113/20000 : ℝ) < (1 + (7/100 : ℝ)) ^ ((1 : ℝ)/12) - 1 := by
  have h : (20113/20000 : ℝ) < ((1 : ℝ) + 7/100) ^ ((1 : ℝ)/12) :=
    lt_twelfthRoot (by norm_num) (by norm_num)
  linarith

/-- Bounds on the annuity growth factor `(1 + 1/240)^360` (true value about
4.46774). -/
theorem annuity_factor_bounds :
    (87/20 : ℝ) < (241/240) ^ (360 : ℕ) ∧ ((241/240 : ℝ)) ^ (360 : ℕ) < 23/5 := by
  constructor <;> norm_num

/-- Bounds on the §8 scenario's minimum payment (the true value is about
536.82). -/
theorem min_payment_360_bounds :
    (532 : ℝ) < 100000 * (1/240) * (241/240) ^ (360 : ℕ) / ((241/240) ^ (360 : ℕ) - 1) ∧
    100000 * (1/240) * ((241 : ℝ)/240) ^ (360 : ℕ) / (((241 : ℝ)/240) ^ (360 : ℕ) - 1) < 542 := by
  obtain ⟨h1, h2⟩ := annuity_factor_bounds
  generalize hg : ((241 : ℝ)/240) ^ (360 : ℕ) = P at h1 h2 ⊢
  have hP : (0 : ℝ) < P - 1 := by linarith
  constructor
  · rw [lt_div_iff hP]; linarith
  · rw [div_lt_iff hP]; linarith

/-! ## Claim C6: pocket money -/

/-- Claim C6 counterexample: in the `c6` scenario the loan only needs 50 of
the 60 target, so the actual out-of-pocket payment is 50; the claimed
formula `max 0 (minimum_payment - actual out-of-pocket)` gives 50, but the
code computes `max 0 (minimum_payment - target_payment) = 40` regardless of
what was actually paid. -/
theorem C6_counterexample :
    (process_month c6_config c6_loan c6_savings).pocket_money = 40 ∧
    max 0 (c6_config.minimum_payment -
      ((process_month c6_config c6_loan c6_savings).interest_payment +
       (process_month c6_config c6_loan c6_savings).principal_payment)) = 50 ∧
    (process_month c6_config c6_loan c6_savings).pocket_money ≠
      max 0 (c6_config.minimum_payment -
        ((process_month c6_config c6_loan c6_savings).interest_payment +
         (process_month c6_config c6_loan c6_savings).principal_payment)) := by
  have hmlr : monthly_loan_rate c6_config = 0 := monthly_loan_rate_zero rfl
  have hmi : monthly_interest c6_config c6_loan = 0 := by
    simp [monthly_interest, hmlr]
  have hroute : ¬ routeExcess c6_config c6_loan := by
    rintro ⟨hf, -, -⟩
    simp [c6_config] at hf
  have htn : total_needed c6_config c6_loan = 50 := by
    unfold total_needed
    rw [hmi]
    show (50 : ℝ) + 0 = 50
    norm_num
  have hpfi : payment_from_income c6_config c6_loan = 50 := by
    unfold payment_from_income
    rw [if_neg hroute, htn]
    show min (60 : ℝ) 50 = 50
    rw [min_eq_right (by norm_num)]
  have hip : interest_payment c6_config c6_loan = 0 := by
    unfold interest_payment
    rw [hmi, hpfi]
    exact min_eq_left (by norm_num)
  have hinc : income_principal c6_config c6_loan = 50 := by
    unfold income_principal
    rw [hpfi, hip]
    norm_num
  have hsp : savings_payment c6_config c6_loan c6_savings = 0 := by
    unfold savings_payment
    rw [if_neg]
    rintro ⟨hs, -, -⟩
    simp [c6_savings] at hs
  have hpp : principal_payment c6_config c6_loan c6_savings = 50 := by
    unfold principal_payment
    rw [hsp, if_neg (lt_irrefl 0), hinc]
  have hpm : pocket_money c6_config = 40 := by
    unfold pocket_money
    show max 0 ((100 : ℝ) - 60) = 40
    norm_num
  refine ⟨by rw [process_month_pocket, hpm], ?_, ?_⟩
  · rw [process_month_interest_payment, process_month_principal_payment, hip, hpp]
    show max 0 ((100 : ℝ) - (0 + 50)) = 50
    norm_num
  · rw [process_month_pocket, hpm, process_month_interest_payment,
      process_month_principal_payment, hip, hpp]
    show (40 : ℝ) ≠ max 0 ((100 : ℝ) - (0 + 50))
    norm_num

/-- Claim C6 (amended): the month's pocket money is
`max 0 (minimum_payment - target_payment)` — computed from the configured
target payment, not from the amount actually paid out of pocket — and the
cumulative total grows by exactly that amount. -/
theorem C6_amended_pocket_money (c : PaymentConfig) (l : LoanState) (s : SavingsState) :
    (process_month c l s).pocket_money = max 0 (c.minimum_payment - c.target_payment) ∧
    (process_month c l s).new_savings_state.total_pocket_money =
      s.total_pocket_money + (process_month c l s).pocket_money :=
  ⟨rfl, rfl⟩

/-! ## Claim C7: the end-of-month state update -/

/-- Claim C7 counterexample: with a compound monthly rate of exactly 1% on a
balance of 1000 and a target payment of 4, the accrued interest is 10 but
only 4 is paid; the code leaves the balance at 1000 (the unpaid 6 of
interest simply vanishes), while the claimed update
`max 0 (balance + interest - amount applied)` would give 1006. -/
theorem C7_counterexample :
    (process_month c7_config c7_loan c7_savings).new_loan_state.balance = 1000 ∧
    max 0 (c7_loan.balance + monthly_interest c7_config c7_loan -
      ((process_month c7_config c7_loan c7_savings).interest_payment +
       (process_month c7_config c7_loan c7_savings).principal_payment)) = 1006 ∧
    (process_month c7_config c7_loan c7_savings).new_loan_state.balance ≠
      max 0 (c7_loan.balance + monthly_interest c7_config c7_loan -
        ((process_month c7_config c7_loan c7_savings).interest_payment +
         (process_month c7_config c7_loan c7_savings).principal_payment)) := by
  have hmlr : monthly_loan_rate c7_config = 1/100 := by
    have h := @monthly_loan_rate_of_pow c7_config (101/100) (by norm_num) rfl
    rw [h]; norm_num
  have hmi : monthly_interest c7_config c7_loan = 10 := by
    unfold monthly_interest
    rw [hmlr]
    show (1000 : ℝ) * (1/100) = 10
    norm_num
  have hroute : ¬ routeExcess c7_config c7_loan := by
    rintro ⟨-, hpos, -⟩
    unfold excess_payment at hpos
    rw [show c7_config.target_payment = (4 : ℝ) from rfl,
      show c7_config.minimum_payment = (4 : ℝ) from rfl] at hpos
    norm_num at hpos
  have htn : total_needed c7_config c7_loan = 1010 := by
    unfold total_needed
    rw [hmi]
    show (1000 : ℝ) + 10 = 1010
    norm_num
  have hpfi : payment_from_income c7_config c7_loan = 4 := by
    unfold payment_from_income
    rw [if_neg hroute, htn]
    show min (4 : ℝ) 1010 = 4
    rw [min_eq_left (by norm_num)]
  have hip : interest_payment c7_config c7_loan = 4 := by
    unfold interest_payment
    rw [hmi, hpfi]
    exact min_eq_right (by norm_num)
  have hinc : income_principal c7_config c7_loan = 0 := by
    unfold income_principal
    rw [hpfi, hip]
    norm_num
  have hsp : savings_payment c7_config c7_loan c7_savings = 0 := by
    unfold savings_payment
    rw [if_neg]
    rintro ⟨hs, -, -⟩
    simp [c7_savings] at hs
  have hpp : principal_payment c7_config c7_loan c7_savings = 0 := by
    unfold principal_payment
    rw [hsp, if_neg (lt_irrefl 0), hinc]
  have hnlb : new_loan_balance c7_config c7_loan c7_savings = 1000 := by
    unfold new_loan_balance
    rw [hpp]
    show (1000 : ℝ) - 0 = 1000
    norm_num
  refine ⟨by rw [process_month_loan_balance, hnlb], ?_, ?_⟩
  · rw [process_month_interest_payment, process_month_principal_payment, hip, hpp, hmi]
    show max 0 ((1000 : ℝ) + 10 - (4 + 0)) = 1006
    norm_num
  · rw [process_month_loan_balance, hnlb, process_month_interest_payment,
      process_month_principal_payment, hip, hpp, hmi]
    show (1000 : ℝ) ≠ max 0 ((1000 : ℝ) + 10 - (4 + 0))
    norm_num

/-- Claim C7 (amended): the states returned by `process_month` satisfy
new loan balance = old balance - principal actually applied (accrued
interest not covered by the payment is *not* capitalized and no `max 0`
clamp is applied), and new savings balance = old balance + investment
return - tax - withdrawal + savings contribution. -/
theorem C7_amended_state_update (c : PaymentConfig) (l : LoanState) (s : SavingsState) :
    (process_month c l s).new_loan_state.balance =
      l.balance - (process_month c l s).principal_payment ∧
    (process_month c l s).new_savings_state.balance =
      s.balance + (process_month c l s).investment_returns -
        (process_month c l s).tax_payment - savings_payment c l s +
        (process_month c l s).savings_contribution :=
  ⟨rfl, rfl⟩

/-! ## Claim C10: loan balance nonnegativity and absorption at zero -/

/-- Claim C10: with nonnegative loan rate, target payment and monthly
savings payment, a nonnegative loan balance stays nonnegative after a
month; an exactly-zero balance is returned as exactly zero; and zero is
absorbing over any number of further months. -/
theorem C10_loan_balance_nonneg_and_zero_absorbing
    (c : PaymentConfig) (l : LoanState) (s : SavingsState)
    (hr : 0 ≤ c.loan_rate) (ht : 0 ≤ c.target_payment)
    (hm : 0 ≤ c.monthly_savings_payment) (hb : 0 ≤ l.balance) :
    0 ≤ (process_month c l s).new_loan_state.balance ∧
    (l.balance = 0 → (process_month c l s).new_loan_state.balance = 0) ∧
    (l.balance = 0 → ∀ n, (run_months c n (l, s)).1.balance = 0) := by
  refine ⟨?_, ?_, ?_⟩
  · rw [process_month_loan_balance]
    unfold new_loan_balance
    have := principal_payment_le_balance c l s hb
    linarith
  · intro h0
    rw [process_month_loan_balance]
    exact (zero_balance_step s h0 ht).2.2.2.2.2.1
  · intro h0 n
    exact run_months_zero_absorbing c ht n l s h0

/-- Claim C10 witness: the all-zero scenario, run for three months. -/
theorem C10_witness :
    0 ≤ (process_month c10w_config c10w_loan c10w_savings).new_loan_state.balance ∧
    (process_month c10w_config c10w_loan c10w_savings).new_loan_state.balance = 0 ∧
    (run_months c10w_config 3 (c10w_loan, c10w_savings)).1.balance = 0 := by
  obtain ⟨h1, h2, h3⟩ :=
    C10_loan_balance_nonneg_and_zero_absorbing c10w_config c10w_loan c10w_savings
      (le_refl 0) (le_refl 0) (le_refl 0) (le_refl 0)
  exact ⟨h1, h2 rfl, h3 rfl 3⟩

/-! ## Claim C8: payoff reinvestment -/

/-- Claim C8 counterexample: with excess routing active (flag on, target
1000, minimum 100) and a loan of 50 at an exact 1% compound monthly rate,
the month both routes the excess (900) and clears the loan with
50.5 = 101/2 applied; the code's final `savings_contribution` is the
payoff remainder 949.5 = 1899/2 alone — the routed 900 is overwritten, not
added on top as the claim states. -/
theorem C8_counterexample :
    payment_from_income c8_config c8_loan = 101/2 ∧
    routed_contribution c8_config c8_loan = 900 ∧
    (process_month c8_config c8_loan c8_savings).savings_contribution = 1899/2 ∧
    (process_month c8_config c8_loan c8_savings).savings_contribution ≠
      routed_contribution c8_config c8_loan +
        (c8_config.target_payment - payment_from_income c8_config c8_loan) := by
  have hmlr : monthly_loan_rate c8_config = 1/100 := by
    have h := @monthly_loan_rate_of_pow c8_config (101/100) (by norm_num) rfl
    rw [h]; norm_num
  have hmi : monthly_interest c8_config c8_loan = 1/2 := by
    unfold monthly_interest
    rw [hmlr]
    show (50 : ℝ) * (1/100) = 1/2
    norm_num
  have htn : total_needed c8_config c8_loan = 101/2 := by
    unfold total_needed
    rw [hmi]
    show (50 : ℝ) + 1/2 = 101/2
    norm_num
  have hexc : excess_payment c8_config = 900 := by
    unfold excess_payment
    show max 0 ((1000 : ℝ) - 100) = 900
    norm_num
  have hroute : routeExcess c8_config c8_loan := by
    refine ⟨rfl, ?_, ?_⟩
    · rw [hexc]; norm_num
    · show (0 : ℝ) < 50; norm_num
  have hpfi : payment_from_income c8_config c8_loan = 101/2 := by
    unfold payment_from_income
    rw [if_pos hroute, htn,
      show c8_config.target_payment = (1000 : ℝ) from rfl,
      show c8_config.minimum_payment = (100 : ℝ) from rfl,
      min_eq_right (by norm_num : (101/2 : ℝ) ≤ 1000),
      min_eq_right (by norm_num : (101/2 : ℝ) ≤ 100)]
  have hip : interest_payment c8_config c8_loan = 1/2 := by
    unfold interest_payment
    rw [hmi, hpfi]
    exact min_eq_left (by norm_num)
  have hinc : income_principal c8_config c8_loan = 50 := by
    unfold income_principal
    rw [hpfi, hip]
    norm_num
  have hsp : savings_payment c8_config c8_loan c8_savings = 0 := by
    unfold savings_payment
    rw [if_neg]
    rintro ⟨hs, -, -⟩
    simp [c8_savings] at hs
  have hpp : principal_payment c8_config c8_loan c8_savings = 50 := by
    unfold principal_payment
    rw [hsp, if_neg (lt_irrefl 0), hinc]
  have hnlb : new_loan_balance c8_config c8_loan c8_savings = 0 := by
    unfold new_loan_balance
    rw [hpp]
    show (50 : ℝ) - 50 = 0
    norm_num
  have hrc : routed_contribution c8_config c8_loan = 900 := by
    unfold routed_contribution
    rw [if_pos hroute, hexc]
  have hsc : savings_contribution c8_config c8_loan c8_savings = 1899/2 := by
    unfold savings_contribution
    rw [if_pos ⟨hnlb, by rw [hpfi]; show (101/2 : ℝ) < 1000; norm_num⟩, hpfi]
    show (1000 : ℝ) - 101/2 = 1899/2
    norm_num
  refine ⟨hpfi, hrc, by rw [process_month_contribution, hsc], ?_⟩
  rw [process_month_contribution, hsc, hrc, hpfi]
  show (1899/2 : ℝ) ≠ 900 + (1000 - 101/2)
  norm_num

/-- Claim C8 (amended): when the loan balance reaches exactly zero and the
income payment is below the target, the month's `savings_contribution` is
`target_payment - payment_from_income` — it *replaces* (overwrites) any
excess-routing contribution instead of adding to it; and a month that
starts with a zero balance and a nonnegative target has zero interest and
principal payments and contributes the whole target payment to savings. -/
theorem C8_amended_payoff_reinvestment (c : PaymentConfig) (l : LoanState) (s : SavingsState) :
    (new_loan_balance c l s = 0 ∧ payment_from_income c l < c.target_payment →
      (process_month c l s).savings_contribution =
        c.target_payment - payment_from_income c l) ∧
    (l.balance = 0 ∧ 0 ≤ c.target_payment →
      (process_month c l s).interest_payment = 0 ∧
      (process_month c l s).principal_payment = 0 ∧
      (process_month c l s).savings_contribution = c.target_payment) := by
  constructor
  · rintro ⟨h0, hlt⟩
    rw [process_month_contribution]
    unfold savings_contribution
    rw [if_pos ⟨h0, hlt⟩]
  · rintro ⟨h0, ht⟩
    obtain ⟨-, hip, -, -, hpp, -, hsc⟩ := zero_balance_step s h0 ht
    exact ⟨by rw [process_month_interest_payment, hip],
      by rw [process_month_principal_payment, hpp],
      by rw [process_month_contribution, hsc]⟩

/-- Claim C8 witness: a month starting at zero balance with target 5. -/
theorem C8_amended_witness :
    (process_month c8w_config c8w_loan c8w_savings).savings_contribution = 5 ∧
    (process_month c8w_config c8w_loan c8w_savings).interest_payment = 0 ∧
    (process_month c8w_config c8w_loan c8w_savings).principal_payment = 0 := by
  have h := C8_amended_payoff_reinvestment c8w_config c8w_loan c8w_savings
  obtain ⟨hpfi, -, -, -, -, hnlb, -⟩ :=
    @zero_balance_step c8w_config c8w_loan c8w_savings rfl
      (show (0 : ℝ) ≤ 5 by norm_num)
  have h1 := h.1 ⟨hnlb, by rw [hpfi]; show (0 : ℝ) < 5; norm_num⟩
  have h2 := h.2 ⟨rfl, show (0 : ℝ) ≤ 5 by norm_num⟩
  refine ⟨?_, h2.1, h2.2.1⟩
  rw [h1, hpfi]
  show (5 : ℝ) - 0 = 5
  norm_num

/-! ## Claim C5: the STOCK-regime withdrawal cap -/

/-- Concrete evaluation of the `c5` STOCK scenario: with savings 100,
monthly withdrawal 100 and tax rate 25%, the code withdraws the full 100
and charges 25 tax, driving the savings balance to -25. -/
theorem c5_scenario_eval :
    income_principal c5_config c5_loan = 0 ∧
    savings_payment c5_config c5_loan c5_savings = 100 ∧
    tax_payment c5_config c5_loan c5_savings = 25 ∧
    monthly_return c5_config c5_loan c5_savings = 0 ∧
    principal_payment c5_config c5_loan c5_savings = 100 ∧
    savings_contribution c5_config c5_loan c5_savings = 0 ∧
    new_savings_balance c5_config c5_loan c5_savings = -25 := by
  have hmlr : monthly_loan_rate c5_config = 0 := monthly_loan_rate_zero rfl
  have hmir : monthly_investment_rate c5_config = 0 := monthly_investment_rate_zero rfl
  have hmi : monthly_interest c5_config c5_loan = 0 := by
    unfold monthly_interest
    rw [hmlr, mul_zero]
  have htn : total_needed c5_config c5_loan = 1000 := by
    unfold total_needed
    rw [hmi]
    show (1000 : ℝ) + 0 = 1000
    norm_num
  have hroute : ¬ routeExcess c5_config c5_loan := by
    rintro ⟨hf, -, -⟩
    simp [c5_config] at hf
  have hpfi : payment_from_income c5_config c5_loan = 0 := by
    unfold payment_from_income
    rw [if_neg hroute, htn]
    show min (0 : ℝ) 1000 = 0
    rw [min_eq_left (by norm_num)]
  have hip : interest_payment c5_config c5_loan = 0 := by
    unfold interest_payment
    rw [hmi, hpfi, min_self]
  have hinc : income_principal c5_config c5_loan = 0 := by
    unfold income_principal
    rw [hpfi, hip]
    norm_num
  have hg : withdrawGuard c5_config c5_loan c5_savings :=
    ⟨show (0 : ℝ) < 100 by norm_num, show (0 : ℝ) < 1000 by norm_num, rfl⟩
  have hsp : savings_payment c5_config c5_loan c5_savings = 100 := by
    unfold savings_payment
    rw [if_pos hg, hinc]
    show min (100 : ℝ) (min 100 (1000 - 0)) = 100
    rw [show (1000 : ℝ) - 0 = 1000 by norm_num,
      min_eq_left (by norm_num : (100 : ℝ) ≤ 1000), min_self]
  have hcd : ¬ (c5_config.investment_type = "CD") := by
    rw [show c5_config.investment_type = "STOCK" from rfl]
    decide
  have hs0 : (0 : ℝ) < c5_savings.balance := show (0 : ℝ) < 100 by norm_num
  have htax : tax_payment c5_config c5_loan c5_savings = 25 := by
    unfold tax_payment
    rw [if_pos hs0, if_neg hcd, if_pos (by rw [hsp]; norm_num), hsp]
    show (100 : ℝ) * (1/4) = 25
    norm_num
  have hret : monthly_return c5_config c5_loan c5_savings = 0 := by
    unfold monthly_return
    rw [if_pos hs0, if_neg hcd, hmir, mul_zero]
  have hpp : principal_payment c5_config c5_loan c5_savings = 100 := by
    unfold principal_payment
    rw [hsp, if_pos (by norm_num : (0 : ℝ) < 100), hinc]
    norm_num
  have hnlb : new_loan_balance c5_config c5_loan c5_savings = 900 := by
    unfold new_loan_balance
    rw [hpp]
    show (1000 : ℝ) - 100 = 900
    norm_num
  have hsc : savings_contribution c5_config c5_loan c5_savings = 0 := by
    unfold savings_contribution
    rw [if_neg, routed_contribution, if_neg hroute]
    rintro ⟨h9, -⟩
    rw [hnlb] at h9
    norm_num at h9
  have hnsb : new_savings_balance c5_config c5_loan c5_savings = -25 := by
    unfold new_savings_balance
    rw [hret, htax, hsp, hsc]
    show (100 : ℝ) + 0 - 25 - 100 + 0 = -25
    norm_num
  exact ⟨hinc, hsp, htax, hret, hpp, hsc, hnsb⟩

/-- Claim C5 counterexample: in the `c5` STOCK scenario the code withdraws
100 — not the 80 the claimed `savings / (1 + tax_rate)` cap would allow —
and the resulting savings balance is -25, refuting "the new savings balance
is never negative". -/
theorem C5_counterexample :
    savings_payment c5_config c5_loan c5_savings = 100 ∧
    min c5_config.monthly_savings_payment
      (min (c5_savings.balance / (1 + c5_config.tax_rate))
        (c5_loan.balance - income_principal c5_config c5_loan)) = 80 ∧
    savings_payment c5_config c5_loan c5_savings ≠
      min c5_config.monthly_savings_payment
        (min (c5_savings.balance / (1 + c5_config.tax_rate))
          (c5_loan.balance - income_principal c5_config c5_loan)) ∧
    (process_month c5_config c5_loan c5_savings).new_savings_state.balance = -25 := by
  obtain ⟨hinc, hsp, -, -, -, -, hnsb⟩ := c5_scenario_eval
  have hcap : min c5_config.monthly_savings_payment
      (min (c5_savings.balance / (1 + c5_config.tax_rate))
        (c5_loan.balance - income_principal c5_config c5_loan)) = 80 := by
    rw [hinc]
    show min (100 : ℝ) (min (100 / (1 + 1/4)) (1000 - 0)) = 80
    rw [show (100 : ℝ) / (1 + 1/4) = 80 by norm_num,
      show (1000 : ℝ) - 0 = 1000 by norm_num,
      min_eq_left (by norm_num : (80 : ℝ) ≤ 1000),
      min_eq_right (by norm_num : (80 : ℝ) ≤ 100)]
  refine ⟨hsp, hcap, ?_, by rw [process_month_savings_balance, hnsb]⟩
  rw [hsp, hcap]
  norm_num

/-- Claim C5 (amended): in the STOCK regime with a positive savings balance,
a positive loan balance and excess routing off, the withdrawal is capped at
`min (monthly_savings_payment) (savings balance) (remaining loan need)` —
with *no* division of the balance by `1 + tax_rate` — and the withdrawal
tax `amount * tax_rate` is deducted from savings alongside the amount, so
the new savings balance can become negative (by up to the tax). -/
theorem C5_amended_stock_withdrawal (c : PaymentConfig) (l : LoanState) (s : SavingsState)
    (htype : c.investment_type = "STOCK") (hs : 0 < s.balance) (hl : 0 < l.balance)
    (hex : c.excess_to_savings = false) :
    savings_payment c l s =
      min c.monthly_savings_payment
        (min s.balance (l.balance - income_principal c l)) ∧
    (process_month c l s).tax_payment =
      (if 0 < savings_payment c l s then savings_payment c l s * c.tax_rate else 0) ∧
    (process_month c l s).principal_payment =
      income_principal c l +
        (if 0 < savings_payment c l s then savings_payment c l s else 0) ∧
    (process_month c l s).new_savings_state.balance =
      s.balance + (process_month c l s).investment_returns -
        (process_month c l s).tax_payment - savings_payment c l s +
        (process_month c l s).savings_contribution := by
  have hg : withdrawGuard c l s := ⟨hs, hl, hex⟩
  have hcd : ¬ (c.investment_type = "CD") := by
    rw [htype]; decide
  refine ⟨?_, ?_, ?_, rfl⟩
  · unfold savings_payment
    rw [if_pos hg]
  · rw [process_month_tax]
    unfold tax_payment
    rw [if_pos hs, if_neg hcd]
  · rw [process_month_principal_payment]
    unfold principal_payment
    by_cases hsp : 0 < savings_payment c l s
    · rw [if_pos hsp, if_pos hsp]
    · rw [if_neg hsp, if_neg hsp, add_zero]

/-- Claim C5 witness: the amended theorem applied to the `c5` scenario. -/
theorem C5_amended_witness :
    savings_payment c5_config c5_loan c5_savings =
      min c5_config.monthly_savings_payment
        (min c5_savings.balance
          (c5_loan.balance - income_principal c5_config c5_loan)) ∧
    (process_month c5_config c5_loan c5_savings).tax_payment = 25 ∧
    (process_month c5_config c5_loan c5_savings).principal_payment = 100 := by
  obtain ⟨hinc, hsp, -, -, -, -, -⟩ := c5_scenario_eval
  obtain ⟨h1, h2, h3, -⟩ :=
    C5_amended_stock_withdrawal c5_config c5_loan c5_savings rfl
      (show (0 : ℝ) < 100 by norm_num) (show (0 : ℝ) < 1000 by norm_num) rfl
  refine ⟨h1, ?_, ?_⟩
  · rw [h2, if_pos (by rw [hsp]; norm_num), hsp]
    show (100 : ℝ) * (1/4) = 25
    norm_num
  · rw [h3, if_pos (by rw [hsp]; norm_num), hsp, hinc]
    norm_num

/-! ## Claim C1: the rate used for interest accrual -/

/-- Claim C1 evidence: in the §8 scenario the month's accrued interest is
`100000 * ((1.05)^(1/12) - 1) < 408`, while the claimed simple-division
accrual `balance * rate / 12` exceeds 416 — the two differ by far more than
0.01, and the interest/principal split is computed from the compound
amount. -/
theorem C1_interest_uses_compound_not_simple_rate :
    (process_month c1_config c1_loan c1_savings).interest_payment =
      monthly_interest c1_config c1_loan ∧
    monthly_interest c1_config c1_loan < 408 ∧
    (416 : ℝ) < c1_loan.balance * (c1_config.loan_rate / 12) := by
  have hub : monthly_loan_rate c1_config < 51/12500 := by
    unfold monthly_loan_rate
    rw [show c1_config.loan_rate = (1/20 : ℝ) from rfl]
    exact monthly_rate_05_lt
  have hlb : (407/100000 : ℝ) < monthly_loan_rate c1_config := by
    unfold monthly_loan_rate
    rw [show c1_config.loan_rate = (1/20 : ℝ) from rfl]
    exact lt_monthly_rate_05
  have hmi_eq : monthly_interest c1_config c1_loan = 100000 * monthly_loan_rate c1_config := by
    unfold monthly_interest
    rw [show c1_loan.balance = (100000 : ℝ) from rfl]
  have hmi_ub : monthly_interest c1_config c1_loan < 408 := by
    rw [hmi_eq]; linarith
  have hmi_lb : (407 : ℝ) < monthly_interest c1_config c1_loan := by
    rw [hmi_eq]; linarith
  have hroute : ¬ routeExcess c1_config c1_loan := by
    rintro ⟨hf, -, -⟩
    simp [c1_config] at hf
  have hpfi : payment_from_income c1_config c1_loan = 600 := by
    unfold payment_from_income
    rw [if_neg hroute]
    unfold total_needed
    rw [show c1_config.target_payment = (600 : ℝ) from rfl,
      show c1_loan.balance = (100000 : ℝ) from rfl]
    exact min_eq_left (by linarith)
  have hip : interest_payment c1_config c1_loan = monthly_interest c1_config c1_loan := by
    unfold interest_payment
    rw [hpfi]
    exact min_eq_left (by linarith)
  refine ⟨by rw [process_month_interest_payment, hip], hmi_ub, ?_⟩
  rw [show c1_loan.balance = (100000 : ℝ) from rfl,
    show c1_config.loan_rate = (1/20 : ℝ) from rfl]
  norm_num

/-! ## Claim C4: the §8 month-one scenario -/

/-- Claim C4 evidence: in the §8 scenario the code produces
interest < 408 (claimed ≈ 416.67), principal > 292 (claimed ≈ 283.33),
investment return < 57 (claimed ≈ 58.33) and tax < 14.15
(claimed ≈ 14.58) — every claimed value is off by far more than 0.01,
because the code converts annual rates compounded instead of dividing by
12. -/
theorem C4_month_one_values_diverge :
    (process_month c4_config c4_loan c4_savings).interest_payment < 408 ∧
    (292 : ℝ) < (process_month c4_config c4_loan c4_savings).principal_payment ∧
    (process_month c4_config c4_loan c4_savings).investment_returns < 57 ∧
    (process_month c4_config c4_loan c4_savings).tax_payment < 1415/100 := by
  have hub : monthly_loan_rate c4_config < 51/12500 := by
    unfold monthly_loan_rate
    rw [show c4_config.loan_rate = (1/20 : ℝ) from rfl]
    exact monthly_rate_05_lt
  have hlb : (407/100000 : ℝ) < monthly_loan_rate c4_config := by
    unfold monthly_loan_rate
    rw [show c4_config.loan_rate = (1/20 : ℝ) from rfl]
    exact lt_monthly_rate_05
  have hiub : monthly_investment_rate c4_config < 1131/200000 := by
    unfold monthly_investment_rate
    rw [show c4_config.investment_rate = (7/100 : ℝ) from rfl]
    exact monthly_rate_07_lt
  have hilb : (113/20000 : ℝ) < monthly_investment_rate c4_config := by
    unfold monthly_investment_rate
    rw [show c4_config.investment_rate = (7/100 : ℝ) from rfl]
    exact lt_monthly_rate_07
  have hmi_eq : monthly_interest c4_config c4_loan = 100000 * monthly_loan_rate c4_config := by
    unfold monthly_interest
    rw [show c4_loan.balance = (100000 : ℝ) from rfl]
  have hmi_ub : monthly_interest c4_config c4_loan < 408 := by
    rw [hmi_eq]; linarith
  have hmi_lb : (407 : ℝ) < monthly_interest c4_config c4_loan := by
    rw [hmi_eq]; linarith
  have hroute : ¬ routeExcess c4_config c4_loan := by
    rintro ⟨hf, -, -⟩
    simp [c4_config] at hf
  have hpfi : payment_from_income c4_config c4_loan = 600 := by
    unfold payment_from_income
    rw [if_neg hroute]
    unfold total_needed
    rw [show c4_config.target_payment = (600 : ℝ) from rfl,
      show c4_loan.balance = (100000 : ℝ) from rfl]
    exact min_eq_left (by linarith)
  have hip : interest_payment c4_config c4_loan = monthly_interest c4_config c4_loan := by
    unfold interest_payment
    rw [hpfi]
    exact min_eq_left (by linarith)
  have hinc : income_principal c4_config c4_loan = 600 - monthly_interest c4_config c4_loan := by
    unfold income_principal
    rw [hpfi, hip]
  have hg : withdrawGuard c4_config c4_loan c4_savings :=
    ⟨show (0 : ℝ) < 10000 by norm_num, show (0 : ℝ) < 100000 by norm_num, rfl⟩
  have hsp : savings_payment c4_config c4_loan c4_savings = 100 := by
    unfold savings_payment
    rw [if_pos hg, hinc,
      show c4_config.monthly_savings_payment = (100 : ℝ) from rfl,
      show c4_savings.balance = (10000 : ℝ) from rfl,
      show c4_loan.balance = (100000 : ℝ) from rfl,
      min_eq_left (by linarith : (10000 : ℝ) ≤ 100000 - (600 - monthly_interest c4_config c4_loan)),
      min_eq_left (by norm_num : (100 : ℝ) ≤ 10000)]
  have hpp : principal_payment c4_config c4_loan c4_savings =
      700 - monthly_interest c4_config c4_loan := by
    unfold principal_payment
    rw [hsp, if_pos (by norm_num : (0 : ℝ) < 100), hinc]
    ring
  have hs0 : (0 : ℝ) < c4_savings.balance := show (0 : ℝ) < 10000 by norm_num
  have hcd : c4_config.investment_type = "CD" := rfl
  have hret : monthly_return c4_config c4_loan c4_savings =
      10000 * monthly_investment_rate c4_config := by
    unfold monthly_return
    rw [if_pos hs0, if_pos hcd, show c4_savings.balance = (10000 : ℝ) from rfl]
  have htax : tax_payment c4_config c4_loan c4_savings =
      10000 * monthly_investment_rate c4_config * (1/4) := by
    unfold tax_payment
    rw [if_pos hs0, if_pos hcd, show c4_savings.balance = (10000 : ℝ) from rfl,
      show c4_config.tax_rate = (1/4 : ℝ) from rfl]
  refine ⟨?_, ?_, ?_, ?_⟩
  · rw [process_month_interest_payment, hip]; exact hmi_ub
  · rw [process_month_principal_payment, hpp]; linarith
  · rw [process_month_returns, hret]; linarith
  · rw [process_month_tax, htax]; linarith

/-! ## Claim C9: excess routing with target 1000 -/

/-- Claim C9 evidence: in the §8 routing scenario the code does cap the
loan payment at the minimum payment (interest + principal = minimum
payment), records the excess `target - minimum` as the contribution, and
performs no savings withdrawal; but the month's principal payment exceeds
124, far above the claimed ≈ 120.15, again because the loan interest is
accrued at the compound monthly rate. -/
theorem C9_excess_routing_behaviour :
    (124 : ℝ) < (process_month c9_config c9_loan c9_savings).principal_payment ∧
    (process_month c9_config c9_loan c9_savings).interest_payment +
      (process_month c9_config c9_loan c9_savings).principal_payment =
        c9_config.minimum_payment ∧
    (process_month c9_config c9_loan c9_savings).savings_contribution =
      c9_config.target_payment - c9_config.minimum_payment ∧
    savings_payment c9_config c9_loan c9_savings = 0 ∧
    (process_month c9_config c9_loan c9_savings).new_savings_state.balance =
      c9_savings.balance +
        (process_month c9_config c9_loan c9_savings).investment_returns -
        (process_month c9_config c9_loan c9_savings).tax_payment +
        (process_month c9_config c9_loan c9_savings).savings_contribution := by
  have hM1 : (532 : ℝ) < c9_config.minimum_payment := by
    rw [show c9_config.minimum_payment =
      100000 * (1/240) * ((241 : ℝ)/240) ^ (360 : ℕ) / (((241 : ℝ)/240) ^ (360 : ℕ) - 1)
      from rfl]
    exact min_payment_360_bounds.1
  have hM2 : c9_config.minimum_payment < 542 := by
    rw [show c9_config.minimum_payment =
      100000 * (1/240) * ((241 : ℝ)/240) ^ (360 : ℕ) / (((241 : ℝ)/240) ^ (360 : ℕ) - 1)
      from rfl]
    exact min_payment_360_bounds.2
  have hub : monthly_loan_rate c9_config < 51/12500 := by
    unfold monthly_loan_rate
    rw [show c9_config.loan_rate = (1/20 : ℝ) from rfl]
    exact monthly_rate_05_lt
  have hlb : (407/100000 : ℝ) < monthly_loan_rate c9_config := by
    unfold monthly_loan_rate
    rw [show c9_config.loan_rate = (1/20 : ℝ) from rfl]
    exact lt_monthly_rate_05
  have hmi_eq : monthly_interest c9_config c9_loan = 100000 * monthly_loan_rate c9_config := by
    unfold monthly_interest
    rw [show c9_loan.balance = (100000 : ℝ) from rfl]
  have hmi_ub : monthly_interest c9_config c9_loan < 408 := by
    rw [hmi_eq]; linarith
  have hmi_lb : (407 : ℝ) < monthly_interest c9_config c9_loan := by
    rw [hmi_eq]; linarith
  have hexc : excess_payment c9_config = 1000 - c9_config.minimum_payment := by
    unfold excess_payment
    rw [show c9_config.target_payment = (1000 : ℝ) from rfl]
    exact max_eq_right (by linarith)
  have hroute : routeExcess c9_config c9_loan := by
    refine ⟨rfl, ?_, show (0 : ℝ) < 100000 by norm_num⟩
    rw [hexc]; linarith
  have hpfi : payment_from_income c9_config c9_loan = c9_config.minimum_payment := by
    unfold payment_from_income
    rw [if_pos hroute]
    unfold total_needed
    rw [show c9_config.target_payment = (1000 : ℝ) from rfl,
      show c9_loan.balance = (100000 : ℝ) from rfl,
      min_eq_left (by linarith : (1000 : ℝ) ≤ 100000 + monthly_interest c9_config c9_loan),
      min_eq_left (by linarith : c9_config.minimum_payment ≤ 1000)]
  have hip : interest_payment c9_config c9_loan = monthly_interest c9_config c9_loan := by
    unfold interest_payment
    rw [hpfi]
    exact min_eq_left (by linarith)
  have hinc : income_principal c9_config c9_loan =
      c9_config.minimum_payment - monthly_interest c9_config c9_loan := by
    unfold income_principal
    rw [hpfi, hip]
  have hsp : savings_payment c9_config c9_loan c9_savings = 0 := by
    unfold savings_payment
    rw [if_neg]
    rintro ⟨-, -, hf⟩
    simp [c9_config] at hf
  have hpp : principal_payment c9_config c9_loan c9_savings =
      c9_config.minimum_payment - monthly_interest c9_config c9_loan := by
    unfold principal_payment
    rw [hsp, if_neg (lt_irrefl 0), hinc]
  have hnlb : new_loan_balance c9_config c9_loan c9_savings ≠ 0 := by
    unfold new_loan_balance
    rw [hpp, show c9_loan.balance = (100000 : ℝ) from rfl]
    intro h
    nlinarith
  have hsc : savings_contribution c9_config c9_loan c9_savings =
      1000 - c9_config.minimum_payment := by
    unfold savings_contribution
    rw [if_neg, routed_contribution, if_pos hroute, hexc]
    rintro ⟨h0, -⟩
    exact hnlb h0
  refine ⟨?_, ?_, ?_, hsp, ?_⟩
  · rw [process_month_principal_payment, hpp]; linarith
  · rw [process_month_interest_payment, process_month_principal_payment, hip, hpp]; ring
  · rw [process_month_contribution, hsc, show c9_config.target_payment = (1000 : ℝ) from rfl]
  · rw [process_month_savings_balance]
    unfold new_savings_balance
    rw [hsp, process_month_returns, process_month_tax, process_month_contribution]
    ring

/-! ## Claim C2: the simulation driver -/

/-- Claim C2 evidence: `run_simulation` raises on every input — already
loading `DerivedConfig` from calculator.py fails — so no call, valid
configuration or not, ever returns a `SimulationResult`. -/
theorem C2_run_simulation_always_raises (debt_amount debt_interest : ℝ)
    (loan_term_months : ℤ) (target_payment initial_savings lump_sum
      monthly_savings_payment investment_rate tax_rate : ℝ) (is_cd : Bool) :
    run_simulation debt_amount debt_interest loan_term_months target_payment
        initial_savings lump_sum monthly_savings_payment investment_rate
        tax_rate is_cd =
      Except.error ("ImportError: cannot import name DerivedConfig from calculator") := by
  have himp : simulation_import_ok = false := by decide
  unfold run_simulation
  rw [himp]
  simp

/-! ## Claim C3: full amortization of the minimum payment -/

/-- Claim C3 counterexample: for the valid input amount 1000, rate 10^-12
and 2 months, the near-zero-denominator fallback of calculator.py lines
103-104 fires and returns `amount * (1 + rate/12)`; two months of the
amortization loop then leave a balance of about -1000, far outside 0.01. -/
theorem C3_counterexample :
    calculate_minimum_payment 1000 (1/10^12) 2 =
      Except.ok (1000 * (1 + (1/10^12 : ℝ)/12)) ∧
    1/100 < |amortized_balance (1000 * (1 + (1/10^12 : ℝ)/12)) (1/10^12) 1000 2| := by
  have hden : ((1 + (1/10^12 : ℝ)/12) ^ (2 : ℕ) - 1) =
      1/(6 * 10^12) + 1/(144 * 10^24) := by
    ring
  have habs : |(1 + (1/10^12 : ℝ)/12) ^ (2 : ℕ) - 1| < 1/10^10 := by
    rw [hden, abs_of_pos (by positivity)]
    norm_num
  have hcmp : calculate_minimum_payment 1000 (1/10^12) 2 =
      Except.ok (1000 * (1 + (1/10^12 : ℝ)/12)) := by
    unfold calculate_minimum_payment
    rw [if_neg (by norm_num), if_neg (by norm_num), if_neg (by decide),
      if_neg (by norm_num)]
    rw [show ((2 : ℤ)).toNat = 2 from rfl, if_pos habs]
  have hq : amortized_balance (1000 * (1 + (1/10^12 : ℝ)/12)) (1/10^12) 1000 2 =
      -(1000 * (1 + (1/10^12 : ℝ)/12)) := by
    rw [amortized_balance_closed, Finset.sum_range_succ, Finset.sum_range_one]
    ring
  refine ⟨hcmp, ?_⟩
  rw [hq, abs_neg, abs_of_pos (by positivity)]
  norm_num

/-- Claim C3 (amended): for principal > 0, rate ≥ 0 and term ≥ 1, provided
the input is outside the near-zero-denominator fallback regime of
calculator.py lines 103-104 (that is, the rate is zero or
`|(1 + rate/12)^term - 1| ≥ 1e-10`), the payment returned by
`calculate_minimum_payment` fully amortizes the loan: iterating the
monthly recurrence `term` times leaves a final balance within 0.01 of zero
(in exact arithmetic, exactly zero). -/
theorem C3_amended_amortization (amount rate : ℝ) (months : ℤ) (payment : ℝ)
    (hm : 1 ≤ months)
    (hfb : rate = 0 ∨ 1/10^10 ≤ |(1 + rate/12) ^ months.toNat - 1|)
    (hok : calculate_minimum_payment amount rate months = Except.ok payment) :
    |amortized_balance payment rate amount months.toNat| ≤ 1/100 := by
  unfold calculate_minimum_payment at hok
  by_cases h1 : amount ≤ 0
  · rw [if_pos h1] at hok; exact absurd hok (by simp)
  rw [if_neg h1] at hok
  by_cases h2 : rate < 0
  · rw [if_pos h2] at hok; exact absurd hok (by simp)
  rw [if_neg h2] at hok
  have h3 : ¬ (months ≤ 0) := by omega
  rw [if_neg h3] at hok
  by_cases h4 : rate = 0
  · rw [if_pos h4] at hok
    have hp : amount / (months : ℝ) = payment := by simpa using hok
    subst h4
    rw [amortized_balance_zero_rate, ← hp]
    have hcast : ((months.toNat : ℕ) : ℝ) = ((months : ℤ) : ℝ) := by
      rw [← Int.cast_natCast, Int.toNat_of_nonneg (by omega)]
    have hmne : ((months : ℤ) : ℝ) ≠ 0 := by
      simp only [ne_eq, Int.cast_eq_zero]
      omega
    rw [hcast, mul_div_cancel₀ amount hmne]
    simp
  · rw [if_neg h4] at hok
    have hden : ¬ (|(1 + rate/12) ^ months.toNat - 1| < 1/10^10) :=
      not_lt.mpr (hfb.resolve_left h4)
    rw [if_neg hden] at hok
    have hp : amount * (rate/12) * (1 + rate/12) ^ months.toNat /
        ((1 + rate/12) ^ months.toNat - 1) = payment := by simpa using hok
    have hden_ne : (1 + rate/12) ^ months.toNat - 1 ≠ 0 := by
      intro h0
      apply hden
      rw [h0]
      simp
    have hq_ne_one : (1 + rate/12) ≠ 1 := by
      intro h0
      apply h4
      have : rate / 12 = 0 := by linarith
      linarith
    have hr12 : rate / 12 ≠ 0 := by
      intro h0
      exact h4 (by linarith)
    rw [amortized_balance_closed, geom_sum_eq hq_ne_one, ← hp]
    have hcancel : amount * (rate/12) * (1 + rate/12) ^ months.toNat /
        ((1 + rate/12) ^ months.toNat - 1) *
        (((1 + rate/12) ^ months.toNat - 1) / (1 + rate/12 - 1)) =
        amount * (1 + rate/12) ^ months.toNat := by
      rw [div_mul_div_comm, show (1 + rate/12 - 1) = rate/12 by ring,
        mul_comm ((1 + rate/12) ^ months.toNat - 1) (rate/12),
        mul_div_mul_right _ _ hden_ne,
        show amount * (rate/12) * (1 + rate/12) ^ months.toNat =
          amount * (1 + rate/12) ^ months.toNat * (rate/12) by ring,
        mul_div_cancel_right₀ _ hr12]
    rw [hcancel, sub_self]
    simp

/-- Claim C3 witness: the zero-rate instance 12000 over 12 months, payment
1000, amortizes exactly. -/
theorem C3_amended_witness :
    calculate_minimum_payment 12000 0 12 = Except.ok 1000 ∧
    |amortized_balance 1000 0 12000 12| ≤ 1/100 := by
  have hok : calculate_minimum_payment 12000 0 12 = Except.ok 1000 := by
    unfold calculate_minimum_payment
    rw [if_neg (by norm_num), if_neg (by norm_num), if_neg (by decide), if_pos rfl]
    simp only [Except.ok.injEq]
    norm_num
  exact ⟨hok, C3_amended_amortization 12000 0 12 1000 (by norm_num) (Or.inl rfl) hok⟩
